import Mathlib

/-!
Shallow embedding of the flood-monitoring backend proxy
(`backend/app/services/ea_service.py`, `backend/app/api/routes.py`,
`backend/config.py`) and proofs of its specified caching and
parameter-shaping properties.

Modelling choices:
* JSON payloads returned by the upstream API are opaque and modelled as
  `String`.
* A parameter mapping (Python `dict` of query parameters, string keys and
  string values) is modelled as an insertion-ordered association list
  `Params`; `dictSet` has Python assignment semantics (update in place,
  else append), `dictGet` is `dict.get`.
* `str(params)` on a dict / `None` is modelled by `pyStr`, reproducing
  CPython's textual form `{'k': 'v', ...}` resp. `None`.
* Wall-clock time is a natural number of seconds passed explicitly;
  `datetime.isoformat` is an arbitrary formatting function `Nat → String`
  passed as a parameter.
* The process-wide cache (`cache = {}` in `ea_service.py`) is explicit
  state `St`, threaded through calls.  `St.calls` is a ghost log of the
  outbound `requests.get` invocations (url and params of each), used to
  state "issues exactly one upstream GET".
* `requests.get` plus `response.raise_for_status()` plus
  `response.json()` are modelled by a function
  `f : String → Option Params → Except Nat String`: `.error s` is an
  `HTTPError` raised for non-success status `s`, `.ok d` the parsed body.
-/

/-- A query-parameter mapping: insertion-ordered key/value pairs
(`dict[str, str]` in the Python source). -/
def Params : Type := List (String × String)

instance : DecidableEq Params := by
  unfold Params
  infer_instance

/-- Python `d[k] = v` on a dict: overwrite the value of an existing key in
place, otherwise append the new binding at the end. -/
def dictSet : Params → String → String → Params
  | [], k, v => [(k, v)]
  | (k', v') :: rest, k, v =>
      if k' = k then (k, v) :: rest else (k', v') :: dictSet rest k v

/-- Python `d.get(k)` on a dict: the value of `k`, or `None` when absent. -/
def dictGet : Params → String → Option String
  | [], _ => none
  | (k', v) :: rest, k => if k' = k then some v else dictGet rest k

/-- Python truthiness of a `d.get(k)` result over string values:
`None` and the empty string are falsy, every other string truthy. -/
def truthy : Option String → Bool
  | none => false
  | some s => s != ""

/-- CPython textual form of a string: `repr` with single quotes (the values
this program places in parameter dicts contain no quotes or escapes). -/
def pyRepr (s : String) : String := "'" ++ s ++ "'"

/-- CPython `str` of a `dict[str, str]`: `\x7b'k': 'v', ...\x7d`. -/
def pyStrDict (l : Params) : String :=
  "\x7b" ++ String.intercalate ", "
    (l.map (fun kv => pyRepr kv.1 ++ ": " ++ pyRepr kv.2)) ++ "\x7d"

/-- CPython `str(params)` where `params` is a dict or `None`. -/
def pyStr : Option Params → String
  | none => "None"
  | some l => pyStrDict l

/-- `config.py`: `CACHE_TIMEOUT = 300`. -/
def CACHE_TIMEOUT : Nat := 300

/-- `config.py`: `API_BASE_URL`. -/
def API_BASE_URL : String := "https://environment.data.gov.uk/flood-monitoring"

/-- `ea_service.py` line 14: `cache_key = f"{url}?{str(params)}"`. -/
def cacheKey (url : String) (params : Option Params) : String :=
  url ++ "?" ++ pyStr params

/-- The in-memory cache: key to `(cached_time, cached_data)` pairs
(`cache[cache_key] = (time.time(), data)`). -/
def Cache : Type := List (String × Nat × String)

instance : DecidableEq Cache := by
  unfold Cache
  infer_instance

/-- Dict lookup on the cache (`cache[cache_key]`, guarded by
`cache_key in cache`). -/
def lookupC : Cache → String → Option (Nat × String)
  | [], _ => none
  | (k', v) :: rest, k => if k' = k then some v else lookupC rest k

/-- Dict assignment on the cache (`cache[cache_key] = (time.time(), data)`):
overwrite in place, else append. -/
def storeC : Cache → String → Nat × String → Cache
  | [], k, v => [(k, v)]
  | (k', v') :: rest, k, v =>
      if k' = k then (k, v) :: rest else (k', v') :: storeC rest k v

/-- Mutable process state: the module-level `cache` dict, plus a ghost log
of the outbound `requests.get` calls issued so far (url and params). -/
structure St where
  cache : Cache
  calls : List (String × Option Params)
deriving DecidableEq

/-- The empty initial state (`cache = \x7b\x7d`, no upstream call issued). -/
def St.empty : St := ⟨[], []⟩

/-- `ea_service.get_with_cache(url, params=None, timeout=None)`.

`f` models `requests.get` + `raise_for_status` + `.json()`; `now` is
`time.time()`.  Returns the result (`.error s` when an `HTTPError` with
status `s` propagates) together with the state after the call. -/
def get_with_cache (f : String → Option Params → Except Nat String)
    (now : Nat) (url : String) (params : Option Params)
    (timeoutArg : Option Nat) (st : St) : Except Nat String × St :=
  let timeout := timeoutArg.getD CACHE_TIMEOUT
  let key := cacheKey url params
  let doFetch : Except Nat String × St :=
    match f url params with
    | .error s => (.error s, { st with calls := st.calls ++ [(url, params)] })
    | .ok d =>
        (.ok d, { cache := storeC st.cache key (now, d),
                  calls := st.calls ++ [(url, params)] })
  match lookupC st.cache key with
  | some (t, d) => if now - t < timeout then (.ok d, st) else doFetch
  | none => doFetch

/-- `True` iff a `get_with_cache` call at time `now` with this key would
not be served from the cache (key absent, or entry no longer fresh). -/
def misses (st : St) (now ttl : Nat) (key : String) : Bool :=
  match lookupC st.cache key with
  | none => true
  | some (t, _) => !(now - t < ttl : Bool)

/-- `ea_service.get_stations(params=None)`. -/
def get_stations (f : String → Option Params → Except Nat String)
    (now : Nat) (params : Option Params) (st : St) : Except Nat String × St :=
  get_with_cache f now (API_BASE_URL ++ "/id/stations") params none st

/-- The parameter shaping inside `get_station_readings` (lines 42-53):
after `params = \x7b\x7d if None`, inject
`params['since'] = (datetime.now() - timedelta(hours=24)).isoformat()`
when none of `today`/`since`/`date` is truthy, then always set
`params['_sorted'] = ''`.  `iso` models `isoformat`, `now` the current
time in seconds, so `iso (now - 86400)` is the "24 hours ago" timestamp. -/
def readings_shape (now : Nat) (iso : Nat → String) (p : Params) : Params :=
  let p :=
    if !truthy (dictGet p "today") && !truthy (dictGet p "since")
        && !truthy (dictGet p "date") then
      dictSet p "since" (iso (now - 86400))
    else p
  dictSet p "_sorted" ""

/-- `ea_service.get_station_readings(station_id, params=None)`. -/
def get_station_readings (f : String → Option Params → Except Nat String)
    (now : Nat) (iso : Nat → String) (station_id : String)
    (params : Option Params) (st : St) : Except Nat String × St :=
  let p := readings_shape now iso (params.getD [])
  get_with_cache f now
    (API_BASE_URL ++ "/id/stations/" ++ station_id ++ "/readings")
    (some p) none st

/-- The caller's parameter dict as observed after `get_station_readings`
returns.  In the Python source the function assigns into the very dict
object the caller passed (`params['since'] = ...`, `params['_sorted'] = ''`),
so when the caller passed a dict it holds the shaped parameter set
afterwards; when the caller passed `None` there is no caller dict. -/
def get_station_readings_caller_params_after (now : Nat) (iso : Nat → String)
    (params : Option Params) : Option Params :=
  match params with
  | none => none
  | some p => some (readings_shape now iso p)

/-- Result of upstream stations JSON as seen by the `/api/stations/<id>`
route: `stations_data.get('items')` — `none` when the `items` key is
absent, otherwise the list of station objects (each opaque, a `String`). -/
structure StationsData where
  items : Option (List String)

/-- `routes.py` lines 14-20, handler for `GET /api/stations/<station_id>`:
query stations filtered by `stationReference`, return the first item with
status 200, or the error body `\x7b'error': 'Station not found'\x7d` with
status 404.  `getStations` abstracts `get_stations` composed with JSON
decoding of the response body. -/
def station (getStations : Params → StationsData) (station_id : String) :
    Nat × Except String String :=
  let stations_data := getStations [("stationReference", station_id)]
  match stations_data.items with
  | some (x :: _) => (200, .ok x)
  | _ => (404, .error "Station not found")

/-! ## Helper lemmas on the cache and parameter dictionaries -/

theorem lookupC_storeC_self (c : Cache) (k : String) (v : Nat × String) :
    lookupC (storeC c k v) k = some v := by
  induction c with
  | nil => simp [storeC, lookupC]
  | cons hd tl ih =>
      obtain ⟨k', v'⟩ := hd
      by_cases h : k' = k
      · simp [storeC, lookupC, h]
      · simp [storeC, lookupC, h, ih]

theorem lookupC_storeC_ne (c : Cache) (k k' : String) (v : Nat × String)
    (h : k' ≠ k) : lookupC (storeC c k v) k' = lookupC c k' := by
  have hk : ¬(k = k') := fun hh => h hh.symm
  induction c with
  | nil => simp [storeC, lookupC, hk]
  | cons hd tl ih =>
      obtain ⟨k0, v0⟩ := hd
      by_cases h0 : k0 = k
      · subst h0
        simp [storeC, lookupC, hk]
      · simp [storeC, lookupC, h0, ih]

theorem dictGet_dictSet_self (p : Params) (k v : String) :
    dictGet (dictSet p k v) k = some v := by
  induction p with
  | nil => simp [dictSet, dictGet]
  | cons hd tl ih =>
      obtain ⟨k', v'⟩ := hd
      by_cases h : k' = k
      · simp [dictSet, dictGet, h]
      · simp [dictSet, dictGet, h, ih]

theorem dictGet_dictSet_ne (p : Params) (k k' v : String) (h : k' ≠ k) :
    dictGet (dictSet p k v) k' = dictGet p k' := by
  have hk : ¬(k = k') := fun hh => h hh.symm
  induction p with
  | nil => simp [dictSet, dictGet, hk]
  | cons hd tl ih =>
      obtain ⟨k0, v0⟩ := hd
      by_cases h0 : k0 = k
      · subst h0
        simp [dictSet, dictGet, hk]
      · simp [dictSet, dictGet, h0, ih]

/-- On a call that does not hit the cache and whose upstream fetch
succeeds, `get_with_cache` returns the fetched value, stores it under the
key with the current timestamp, and logs one upstream GET. -/
theorem get_with_cache_miss_ok (f : String → Option Params → Except Nat String)
    (now : Nat) (url : String) (params : Option Params) (ttlArg : Option Nat)
    (st : St) (d : String)
    (hm : misses st now (ttlArg.getD CACHE_TIMEOUT) (cacheKey url params) = true)
    (hf : f url params = .ok d) :
    get_with_cache f now url params ttlArg st =
      (.ok d, { cache := storeC st.cache (cacheKey url params) (now, d),
                calls := st.calls ++ [(url, params)] }) := by
  unfold get_with_cache
  unfold misses at hm
  cases hl : lookupC st.cache (cacheKey url params) with
  | none => simp [hl, hf]
  | some td =>
      obtain ⟨t, d0⟩ := td
      rw [hl] at hm
      simp only [Bool.not_eq_true', decide_eq_false_iff_not] at hm
      simp [hl, hf, hm]

/-- On a call that does not hit the cache and whose upstream fetch raises,
`get_with_cache` propagates the error, leaves the cache untouched, and
logs one upstream GET. -/
theorem get_with_cache_miss_error
    (f : String → Option Params → Except Nat String)
    (now : Nat) (url : String) (params : Option Params) (ttlArg : Option Nat)
    (st : St) (s : Nat)
    (hm : misses st now (ttlArg.getD CACHE_TIMEOUT) (cacheKey url params) = true)
    (hf : f url params = .error s) :
    get_with_cache f now url params ttlArg st =
      (.error s, { st with calls := st.calls ++ [(url, params)] }) := by
  unfold get_with_cache
  unfold misses at hm
  cases hl : lookupC st.cache (cacheKey url params) with
  | none => simp [hl, hf]
  | some td =>
      obtain ⟨t, d0⟩ := td
      rw [hl] at hm
      simp only [Bool.not_eq_true', decide_eq_false_iff_not] at hm
      simp [hl, hf, hm]

/-- On a fresh cache hit, `get_with_cache` returns the cached value and
leaves the state completely unchanged. -/
theorem get_with_cache_hit (f : String → Option Params → Except Nat String)
    (now : Nat) (url : String) (params : Option Params) (ttlArg : Option Nat)
    (st : St) (t : Nat) (d : String)
    (hl : lookupC st.cache (cacheKey url params) = some (t, d))
    (hfresh : now - t < ttlArg.getD CACHE_TIMEOUT) :
    get_with_cache f now url params ttlArg st = (.ok d, st) := by
  unfold get_with_cache
  simp [hl, hfresh]

/-- Whatever the upstream fetch returns, a call that does not hit the
cache logs exactly one upstream GET, with this url and params. -/
theorem get_with_cache_calls_of_miss
    (f : String → Option Params → Except Nat String)
    (now : Nat) (url : String) (params : Option Params) (ttlArg : Option Nat)
    (st : St)
    (hm : misses st now (ttlArg.getD CACHE_TIMEOUT) (cacheKey url params)
            = true) :
    ((get_with_cache f now url params ttlArg st).2).calls
      = st.calls ++ [(url, params)] := by
  cases hfv : f url params with
  | error s =>
      rw [get_with_cache_miss_error f now url params ttlArg st s hm hfv]
  | ok d =>
      rw [get_with_cache_miss_ok f now url params ttlArg st d hm hfv]

/-- After any `get_with_cache` call the cache is either untouched or the
old cache with a single write under the derived key. -/
theorem get_with_cache_cache_cases
    (f : String → Option Params → Except Nat String)
    (now : Nat) (url : String) (params : Option Params) (ttlArg : Option Nat)
    (st : St) :
    ((get_with_cache f now url params ttlArg st).2).cache = st.cache ∨
    ∃ d, ((get_with_cache f now url params ttlArg st).2).cache
           = storeC st.cache (cacheKey url params) (now, d) := by
  unfold get_with_cache
  cases hl : lookupC st.cache (cacheKey url params) with
  | none =>
      cases hfv : f url params with
      | error s => left; simp [hl, hfv]
      | ok d => right; exact ⟨d, by simp [hl, hfv]⟩
  | some td =>
      obtain ⟨t, d0⟩ := td
      by_cases hfresh : now - t < ttlArg.getD CACHE_TIMEOUT
      · left; simp [hl, hfresh]
      · cases hfv : f url params with
        | error s => left; simp [hl, hfresh, hfv]
        | ok d => right; exact ⟨d, by simp [hl, hfresh, hfv]⟩

/-- The shaping step changes at most the `since` and `_sorted` entries of
a parameter mapping. -/
theorem dictGet_readings_shape_other (now : Nat) (iso : Nat → String)
    (p : Params) (k : String)
    (hks : k ≠ "since") (hkSorted : k ≠ "_sorted") :
    dictGet (readings_shape now iso p) k = dictGet p k := by
  simp only [readings_shape]
  rw [dictGet_dictSet_ne _ _ _ _ hkSorted]
  split
  · rw [dictGet_dictSet_ne _ _ _ _ hks]
  · rfl

/-- The shaping step always sets an empty-valued `_sorted` entry. -/
theorem dictGet_readings_shape_sorted (now : Nat) (iso : Nat → String)
    (p : Params) :
    dictGet (readings_shape now iso p) "_sorted" = some "" := by
  simp only [readings_shape]
  exact dictGet_dictSet_self _ "_sorted" ""

/-- When `today`, `since` and `date` are all falsy (absent or empty), the
shaping step sets `since` to the supplied 24-hours-ago timestamp. -/
theorem dictGet_readings_shape_since (now : Nat) (iso : Nat → String)
    (p : Params)
    (h1 : truthy (dictGet p "today") = false)
    (h2 : truthy (dictGet p "since") = false)
    (h3 : truthy (dictGet p "date") = false) :
    dictGet (readings_shape now iso p) "since" = some (iso (now - 86400)) := by
  simp only [readings_shape, h1, h2, h3]
  rw [if_pos (by simp), dictGet_dictSet_ne _ _ _ _ (by decide)]
  exact dictGet_dictSet_self _ "since" _

/-! ## Claim theorems -/

/-- C2: Cache hit idempotence — for every url, parameter mapping and ttl,
calling `get_with_cache` twice with elapsed time strictly below ttl issues
exactly one upstream GET (the first call logs one GET, the second logs
none and leaves the state untouched), and both calls return the identical
value. -/
theorem cache_hit_idempotence
    (f : String → Option Params → Except Nat String) (url : String)
    (params : Option Params) (ttl t t' : Nat) (d : String) (st : St)
    (hm : misses st t ttl (cacheKey url params) = true)
    (hf : f url params = .ok d)
    (ht : t ≤ t') (hfresh : t' - t < ttl) :
    (get_with_cache f t url params (some ttl) st).1 = .ok d ∧
    ((get_with_cache f t url params (some ttl) st).2).calls.length
      = st.calls.length + 1 ∧
    (get_with_cache f t' url params (some ttl)
        ((get_with_cache f t url params (some ttl) st).2)).1 = .ok d ∧
    (get_with_cache f t' url params (some ttl)
        ((get_with_cache f t url params (some ttl) st).2)).2
      = (get_with_cache f t url params (some ttl) st).2 := by
  have h1 := get_with_cache_miss_ok f t url params (some ttl) st d hm hf
  have hl : lookupC ((get_with_cache f t url params (some ttl) st).2).cache
      (cacheKey url params) = some (t, d) := by
    rw [h1]
    exact lookupC_storeC_self st.cache (cacheKey url params) (t, d)
  have h2 := get_with_cache_hit f t' url params (some ttl) _ t d hl hfresh
  refine ⟨?_, ?_, ?_, ?_⟩
  · rw [h1]
  · rw [h1]; simp
  · rw [h2]
  · rw [h2]

/-- Witness for C2 at a concrete input. -/
theorem cache_hit_idempotence_witness :
    misses St.empty 10 300 (cacheKey "u" none) = true ∧
    ((get_with_cache (fun _ _ => Except.ok "d") 10 "u" none (some 300)
        St.empty).1 = Except.ok "d" ∧
     ((get_with_cache (fun _ _ => Except.ok "d") 10 "u" none (some 300)
        St.empty).2).calls.length = St.empty.calls.length + 1 ∧
     (get_with_cache (fun _ _ => Except.ok "d") 20 "u" none (some 300)
        ((get_with_cache (fun _ _ => Except.ok "d") 10 "u" none (some 300)
           St.empty).2)).1 = Except.ok "d" ∧
     (get_with_cache (fun _ _ => Except.ok "d") 20 "u" none (some 300)
        ((get_with_cache (fun _ _ => Except.ok "d") 10 "u" none (some 300)
           St.empty).2)).2
       = (get_with_cache (fun _ _ => Except.ok "d") 10 "u" none (some 300)
           St.empty).2) :=
  ⟨by decide,
   cache_hit_idempotence (fun _ _ => Except.ok "d") "u" none 300 10 20 "d"
     St.empty (by decide) rfl (by decide) (by decide)⟩

/-- C3: Cache expiry with unconditional overwrite — when the entry for the
key is no longer fresh (ttl or more seconds elapsed), the next call issues
a new upstream GET, overwrites the entry under the same key with the
current timestamp and the fresh payload, and returns the fresh value. -/
theorem cache_expiry_overwrite
    (f2 : String → Option Params → Except Nat String) (url : String)
    (params : Option Params) (ttl t1 t2 : Nat) (d1 d2 : String) (st : St)
    (hl : lookupC st.cache (cacheKey url params) = some (t1, d1))
    (hexp : ttl ≤ t2 - t1)
    (hf : f2 url params = .ok d2) :
    (get_with_cache f2 t2 url params (some ttl) st).1 = .ok d2 ∧
    lookupC ((get_with_cache f2 t2 url params (some ttl) st).2).cache
        (cacheKey url params) = some (t2, d2) ∧
    ((get_with_cache f2 t2 url params (some ttl) st).2).calls.length
      = st.calls.length + 1 := by
  have hm : misses st t2 ttl (cacheKey url params) = true := by
    unfold misses
    rw [hl]
    simp only [Bool.not_eq_true', decide_eq_false_iff_not]
    omega
  have h1 := get_with_cache_miss_ok f2 t2 url params (some ttl) st d2 hm hf
  rw [h1]
  exact ⟨rfl, lookupC_storeC_self st.cache (cacheKey url params) (t2, d2),
    by simp⟩

/-- Witness for C3 at a concrete input: an entry written at time 0 with
payload "old" is overwritten at time 300 (ttl 300) by "new". -/
theorem cache_expiry_overwrite_witness :
    lookupC (St.mk [(cacheKey "u" none, (0, "old"))] []).cache
        (cacheKey "u" none) = some (0, "old") ∧
    ((get_with_cache (fun _ _ => Except.ok "new") 300 "u" none (some 300)
        (St.mk [(cacheKey "u" none, (0, "old"))] [])).1 = Except.ok "new" ∧
     lookupC ((get_with_cache (fun _ _ => Except.ok "new") 300 "u" none
        (some 300) (St.mk [(cacheKey "u" none, (0, "old"))] [])).2).cache
        (cacheKey "u" none) = some (300, "new") ∧
     ((get_with_cache (fun _ _ => Except.ok "new") 300 "u" none (some 300)
        (St.mk [(cacheKey "u" none, (0, "old"))] [])).2).calls.length
       = (St.mk [(cacheKey "u" none, (0, "old"))] []).calls.length + 1) :=
  ⟨by decide,
   cache_expiry_overwrite (fun _ _ => Except.ok "new") "u" none 300 0 300
     "old" "new" (St.mk [(cacheKey "u" none, (0, "old"))] []) (by decide)
     (by decide) rfl⟩

/-- C4: No negative caching and error atomicity — when the call reaches
the upstream fetch and the fetch raises for a non-success status, the
error propagates to the caller, the cache is left entirely unchanged (the
one GET is still issued and logged), and at every later time the same key
still misses, so every subsequent call retries the upstream fetch. -/
theorem no_negative_caching
    (f : String → Option Params → Except Nat String) (url : String)
    (params : Option Params) (ttl now s : Nat) (st : St)
    (hm : misses st now ttl (cacheKey url params) = true)
    (hf : f url params = .error s) :
    (get_with_cache f now url params (some ttl) st).1 = .error s ∧
    ((get_with_cache f now url params (some ttl) st).2).cache = st.cache ∧
    ((get_with_cache f now url params (some ttl) st).2).calls
      = st.calls ++ [(url, params)] ∧
    (∀ now', now ≤ now' →
       misses ((get_with_cache f now url params (some ttl) st).2) now' ttl
         (cacheKey url params) = true) := by
  have h1 := get_with_cache_miss_error f now url params (some ttl) st s hm hf
  rw [h1]
  refine ⟨rfl, rfl, rfl, ?_⟩
  intro now' hle
  unfold misses at hm ⊢
  cases hl : lookupC st.cache (cacheKey url params) with
  | none => simp [hl]
  | some td =>
      obtain ⟨t, d⟩ := td
      rw [hl] at hm
      simp only [Bool.not_eq_true', decide_eq_false_iff_not] at hm
      simp only [hl, Bool.not_eq_true', decide_eq_false_iff_not]
      omega

/-- Witness for C4 at a concrete input: an upstream 500 propagates, the
cache stays empty, and the key still misses 100 seconds later. -/
theorem no_negative_caching_witness :
    misses St.empty 10 300 (cacheKey "u" none) = true ∧
    ((get_with_cache (fun _ _ => Except.error 500) 10 "u" none (some 300)
        St.empty).1 = Except.error 500 ∧
     ((get_with_cache (fun _ _ => Except.error 500) 10 "u" none (some 300)
        St.empty).2).cache = St.empty.cache ∧
     ((get_with_cache (fun _ _ => Except.error 500) 10 "u" none (some 300)
        St.empty).2).calls = St.empty.calls ++ [("u", none)] ∧
     misses ((get_with_cache (fun _ _ => Except.error 500) 10 "u" none
        (some 300) St.empty).2) 110 300 (cacheKey "u" none) = true) :=
  ⟨by decide,
   (by
     have h := no_negative_caching (fun _ _ => Except.error 500) "u" none
       300 10 500 St.empty (by decide) rfl
     exact ⟨h.1, h.2.1, h.2.2.1, h.2.2.2 110 (by decide)⟩)⟩

/-- C10: Cache frame property — on a fresh cache hit `get_with_cache`
performs no write at all (result paired with the state unchanged, so the
stored timestamp is not refreshed and expiry runs from original insertion);
and on any call, every key other than the derived one maps to exactly the
entries it mapped to before. -/
theorem cache_frame_property
    (f : String → Option Params → Except Nat String) (now : Nat)
    (url : String) (params : Option Params) (ttl : Nat) (st : St) :
    (∀ t1 d1, lookupC st.cache (cacheKey url params) = some (t1, d1) →
       now - t1 < ttl →
       get_with_cache f now url params (some ttl) st = (.ok d1, st)) ∧
    (∀ k, k ≠ cacheKey url params →
       lookupC ((get_with_cache f now url params (some ttl) st).2).cache k
         = lookupC st.cache k) := by
  constructor
  · intro t1 d1 hl hfresh
    exact get_with_cache_hit f now url params (some ttl) st t1 d1 hl hfresh
  · intro k hk
    rcases get_with_cache_cache_cases f now url params (some ttl) st with
      h | ⟨d, h⟩
    · rw [h]
    · rw [h]
      exact lookupC_storeC_ne st.cache (cacheKey url params) k (now, d) hk

/-- Witness for C10 at a concrete input: a hit at time 5 on an entry
written at time 0 leaves the state untouched, and an unrelated key "other"
is unaffected by the call. -/
theorem cache_frame_property_witness :
    lookupC (St.mk [(cacheKey "u" none, (0, "d"))] []).cache
        (cacheKey "u" none) = some (0, "d") ∧
    (5 : Nat) - 0 < 300 ∧
    get_with_cache (fun _ _ => Except.ok "x") 5 "u" none (some 300)
        (St.mk [(cacheKey "u" none, (0, "d"))] [])
      = (Except.ok "d", St.mk [(cacheKey "u" none, (0, "d"))] []) ∧
    lookupC ((get_with_cache (fun _ _ => Except.ok "x") 5 "u" none (some 300)
        (St.mk [(cacheKey "u" none, (0, "d"))] [])).2).cache "other"
      = lookupC (St.mk [(cacheKey "u" none, (0, "d"))] []).cache "other" :=
  ⟨by decide, by decide,
   (cache_frame_property (fun _ _ => Except.ok "x") 5 "u" none 300
      (St.mk [(cacheKey "u" none, (0, "d"))] [])).1 0 "d" (by decide)
      (by decide),
   (cache_frame_property (fun _ _ => Except.ok "x") 5 "u" none 300
      (St.mk [(cacheKey "u" none, (0, "d"))] [])).2 "other" (by decide)⟩

/-- C5: Readings parameter normalization — when none of `today`, `since`,
`date` is present in the caller-supplied parameters, a `since` value equal
to the 24-hours-ago timestamp is injected; an empty-valued `_sorted`
parameter is always injected; a truthy `date` (e.g. `date=2024-01-01`)
leaves `since` exactly as the caller supplied it (no injection); and the
upstream GET issued by `get_station_readings` carries exactly the shaped
parameter set. -/
theorem readings_param_normalization (now : Nat) (iso : Nat → String)
    (p : Params)
    (h1 : dictGet p "today" = none) (h2 : dictGet p "since" = none)
    (h3 : dictGet p "date" = none) :
    dictGet (readings_shape now iso p) "since" = some (iso (now - 86400)) ∧
    (∀ q : Params, dictGet (readings_shape now iso q) "_sorted" = some "") ∧
    (∀ q : Params, truthy (dictGet q "date") = true →
       dictGet (readings_shape now iso q) "since" = dictGet q "since") ∧
    (∀ (f : String → Option Params → Except Nat String) (sid : String),
       ((get_station_readings f now iso sid (some p) St.empty).2).calls
         = [(API_BASE_URL ++ "/id/stations/" ++ sid ++ "/readings",
             some (readings_shape now iso p))]) := by
  refine ⟨?_, ?_, ?_, ?_⟩
  · exact dictGet_readings_shape_since now iso p (by rw [h1]; rfl)
      (by rw [h2]; rfl) (by rw [h3]; rfl)
  · intro q
    exact dictGet_readings_shape_sorted now iso q
  · intro q hq
    simp only [readings_shape, hq]
    rw [dictGet_dictSet_ne _ _ _ _ (by decide)]
    simp
  · intro f sid
    unfold get_station_readings
    rw [get_with_cache_calls_of_miss f now _ _ none St.empty rfl]
    rfl

/-- Witness for C5 at a concrete input. -/
theorem readings_param_normalization_witness :
    dictGet ([] : Params) "today" = none ∧
    (dictGet (readings_shape 100000 (fun n => toString n) []) "since"
       = some (toString (100000 - 86400)) ∧
     dictGet (readings_shape 100000 (fun n => toString n) [("x", "y")])
       "_sorted" = some "" ∧
     dictGet (readings_shape 100000 (fun n => toString n)
       [("date", "2024-01-01")]) "since" = none ∧
     ((get_station_readings (fun _ _ => Except.ok "d") 100000
         (fun n => toString n) "S" (some []) St.empty).2).calls
       = [(API_BASE_URL ++ "/id/stations/S/readings",
           some (readings_shape 100000 (fun n => toString n) []))]) := by
  have h := readings_param_normalization 100000 (fun n => toString n) []
    rfl rfl rfl
  exact ⟨rfl, h.1, h.2.1 [("x", "y")],
    (h.2.2.1 [("date", "2024-01-01")] (by decide)).trans rfl,
    (h.2.2.2 (fun _ _ => Except.ok "d") "S").trans (by decide)⟩

/-- C9: Injection is decided by value truthiness, not key presence — when
every one of `today`, `since`, `date` that is present maps to the empty
string (all three falsy), the default `since` is still injected,
overwriting any caller-supplied `since`; and any caller-supplied `_sorted`
value is always overwritten with the empty string. -/
theorem readings_truthiness_injection (now : Nat) (iso : Nat → String)
    (p : Params)
    (h1 : truthy (dictGet p "today") = false)
    (h2 : truthy (dictGet p "since") = false)
    (h3 : truthy (dictGet p "date") = false) :
    dictGet (readings_shape now iso p) "since" = some (iso (now - 86400)) ∧
    (∀ q : Params, dictGet (readings_shape now iso q) "_sorted" = some "") :=
  ⟨dictGet_readings_shape_since now iso p h1 h2 h3,
   fun q => dictGet_readings_shape_sorted now iso q⟩

/-- Witness for C9 at a concrete input: caller supplies `since=''`,
`date=''` and `_sorted='x'`; the default `since` is injected over the
empty value and `_sorted` is overwritten with the empty string. -/
theorem readings_truthiness_injection_witness :
    truthy (dictGet [("since", ""), ("date", ""), ("_sorted", "x")] "since")
      = false ∧
    (dictGet (readings_shape 100000 (fun n => toString n)
        [("since", ""), ("date", ""), ("_sorted", "x")]) "since"
      = some (toString (100000 - 86400)) ∧
     dictGet (readings_shape 100000 (fun n => toString n)
        [("since", ""), ("date", ""), ("_sorted", "x")]) "_sorted"
      = some "") := by
  have h := readings_truthiness_injection 100000 (fun n => toString n)
    [("since", ""), ("date", ""), ("_sorted", "x")] rfl rfl rfl
  exact ⟨rfl, h.1, h.2 [("since", ""), ("date", ""), ("_sorted", "x")]⟩

/-- C6: Station-by-id lookup — the `/api/stations/<id>` handler queries
the stations resource filtered by `stationReference = id`; when the
filtered result has at least one item it returns the first item with
status 200, and when it has zero items it returns status 404 with the
body `error: Station not found`. -/
theorem station_by_id_lookup (gs : Params → StationsData) (sid : String) :
    (∀ x xs, (gs [("stationReference", sid)]).items = some (x :: xs) →
       station gs sid = (200, Except.ok x)) ∧
    ((gs [("stationReference", sid)]).items = some [] →
       station gs sid = (404, Except.error "Station not found")) := by
  constructor
  · intro x xs h
    simp [station, h]
  · intro h
    simp [station, h]

/-- Witness for C6 at concrete inputs: a two-item result yields the first
item with 200, a zero-item result yields the 404 error body. -/
theorem station_by_id_lookup_witness :
    station (fun _ => StationsData.mk (some ["s1", "s2"])) "X"
      = (200, Except.ok "s1") ∧
    station (fun _ => StationsData.mk (some [])) "UNKNOWN123"
      = (404, Except.error "Station not found") :=
  ⟨(station_by_id_lookup (fun _ => StationsData.mk (some ["s1", "s2"]))
      "X").1 "s1" ["s2"] rfl,
   (station_by_id_lookup (fun _ => StationsData.mk (some []))
      "UNKNOWN123").2 rfl⟩

/-- C8 counterexample: `get_station_readings` does mutate the caller's
mapping — after a call with the caller-supplied dict `date=2024-01-01`,
that dict is no longer equal to what the caller passed (an `_sorted` entry
was assigned into it), refuting the claim that the caller's mapping is
left unchanged. -/
theorem readings_mutation_counterexample :
    get_station_readings_caller_params_after 0 (fun _ => "T")
        (some [("date", "2024-01-01")])
      ≠ some [("date", "2024-01-01")] := by
  decide

/-- C8 amended: `get_station_readings` mutates the caller-supplied mapping
in place — after the call the caller's mapping is exactly the shaped
upstream parameter set: it has gained an empty-valued `_sorted` entry (and
a `since` entry when none of `today`/`since`/`date` was truthy), while
every entry under any other key is preserved unchanged. -/
theorem readings_mutation_amended (now : Nat) (iso : Nat → String)
    (p : Params) :
    get_station_readings_caller_params_after now iso (some p)
      = some (readings_shape now iso p) ∧
    dictGet (readings_shape now iso p) "_sorted" = some "" ∧
    (truthy (dictGet p "today") = false → truthy (dictGet p "since") = false →
       truthy (dictGet p "date") = false →
       dictGet (readings_shape now iso p) "since" = some (iso (now - 86400))) ∧
    (∀ k, k ≠ "since" → k ≠ "_sorted" →
       dictGet (readings_shape now iso p) k = dictGet p k) :=
  ⟨rfl, dictGet_readings_shape_sorted now iso p,
   fun h1 h2 h3 => dictGet_readings_shape_since now iso p h1 h2 h3,
   fun k hks hkSorted => dictGet_readings_shape_other now iso p k hks hkSorted⟩

/-- Witness for the amended C8 at a concrete input. -/
theorem readings_mutation_amended_witness :
    get_station_readings_caller_params_after 0 (fun _ => "T")
        (some [("date", "2024-01-01")])
      = some (readings_shape 0 (fun _ => "T") [("date", "2024-01-01")]) ∧
    dictGet (readings_shape 0 (fun _ => "T") [("date", "2024-01-01")])
        "_sorted" = some "" ∧
    dictGet (readings_shape 0 (fun _ => "T") [("date", "2024-01-01")])
        "date" = dictGet [("date", "2024-01-01")] "date" := by
  have h := readings_mutation_amended 0 (fun _ => "T") [("date", "2024-01-01")]
  exact ⟨h.1, h.2.1, h.2.2.2 "date" (by decide) (by decide)⟩

/-- C1 refutation: cache keys are insertion-order dependent — the same
parameter mapping given in two insertion orders yields two different
cache keys, so the second `get_with_cache` call misses the entry written
by the first and issues a second upstream GET within ttl (here two GETs
are logged at the same instant). -/
theorem cache_key_order_dependence :
    cacheKey "u" (some [("a", "1"), ("b", "2")])
      ≠ cacheKey "u" (some [("b", "2"), ("a", "1")]) ∧
    ((get_with_cache (fun _ _ => Except.ok "d") 0 "u"
        (some [("b", "2"), ("a", "1")]) (some 300)
        ((get_with_cache (fun _ _ => Except.ok "d") 0 "u"
            (some [("a", "1"), ("b", "2")]) (some 300)
            St.empty).2)).2).calls.length = 2 :=
  ⟨by decide, rfl⟩

/-- C7 refutation: an absent parameter mapping (`params=None`) and an
empty one (`params` the empty dict) yield different cache keys
(`u?None` versus `u?` followed by empty braces), so the second call
misses the entry written by the first and a second upstream GET is issued
within ttl. -/
theorem cache_key_none_vs_empty :
    cacheKey "u" none ≠ cacheKey "u" (some []) ∧
    cacheKey "u" none = "u?None" ∧
    ((get_with_cache (fun _ _ => Except.ok "d") 0 "u" (some [])
        (some 300)
        ((get_with_cache (fun _ _ => Except.ok "d") 0 "u" none (some 300)
            St.empty).2)).2).calls.length = 2 :=
  ⟨by decide, rfl, rfl⟩
